import Mathlib

/-!
Verification of the admin-session authentication and authorization lifecycle
of the grocerygunj admin dashboard.

The definitions below are a shallow embedding of:
  * `src/lib/hooks/useSessionConfig.ts`  (Session Config)
  * `ProtectedRoute.tsx`                 (Protected Route Gate)
  * `src/lib/debugUtils.ts`              (Diagnostic Utilities)
Stateful React code is embedded as explicit state records plus pure
transition/render functions; every backend call is represented by its
outcome (a possible fault injected through a `Faults` record), so that the
control flow of the embedded functions mirrors the source line by line.
-/

namespace GroceryGunj

/-! ## Session Config — `src/lib/hooks/useSessionConfig.ts` -/

structure SessionConfig where
  SESSION_DURATION_SECONDS : Nat
  SESSION_DURATION_MS : Nat
  SESSION_DURATION_HUMAN : String
  SESSION_REFRESH_INTERVAL : Nat
  ROUTE_REFRESH_INTERVAL : Nat
  MIN_REFRESH_INTERVAL : Nat
deriving Repr, DecidableEq

/-- Embeds `useSessionConfig` from `src/lib/hooks/useSessionConfig.ts`.
The hook memoizes a record computed from the constants below; the
memoization has no observable effect, so the embedding is the pure
computation itself. -/
def useSessionConfig : SessionConfig :=
  -- Session duration of 1 day (reduced from 11 days)
  let DAYS := 1
  let HOURS_PER_DAY := 24
  let MINUTES_PER_HOUR := 60
  let SECONDS_PER_MINUTE := 60
  let MILLISECONDS_PER_SECOND := 1000
  let DAYS_IN_SECONDS := DAYS * HOURS_PER_DAY * MINUTES_PER_HOUR * SECONDS_PER_MINUTE
  let DAYS_IN_MS := DAYS_IN_SECONDS * MILLISECONDS_PER_SECOND
  let HOURS_6_IN_MS := 6 * MINUTES_PER_HOUR * SECONDS_PER_MINUTE * MILLISECONDS_PER_SECOND
  let MINUTES_30_IN_MS := 30 * SECONDS_PER_MINUTE * MILLISECONDS_PER_SECOND
  { SESSION_DURATION_SECONDS := DAYS_IN_SECONDS
    SESSION_DURATION_MS := DAYS_IN_MS
    SESSION_DURATION_HUMAN := toString DAYS ++ " day"
    SESSION_REFRESH_INTERVAL := HOURS_6_IN_MS
    ROUTE_REFRESH_INTERVAL := HOURS_6_IN_MS
    MIN_REFRESH_INTERVAL := MINUTES_30_IN_MS }

/-! ## Protected Route Gate — `ProtectedRoute.tsx`

The gate's observable state is the tuple of auth-context values it reads
(`session`, `isAdmin`, `loading`) together with its own `useState` flags
(`refreshing`, `refreshAttempted`, `refreshError`, `forceComplete`).
`forceAdminFlag` records the value of `isAdminAccessForced()` (the
`FORCE_ADMIN_ACCESS` session-storage flag): it is part of the observable
environment, and the render function below — embedded faithfully from the
source — never consults it. -/

structure GateState where
  session : Bool
  isAdmin : Bool
  loading : Bool
  refreshing : Bool
  refreshAttempted : Bool
  refreshError : Bool
  forceComplete : Bool
  forceAdminFlag : Bool
deriving Repr, DecidableEq

/-- The five mutually exclusive render outcomes of `ProtectedRoute`.
`loadingView b` records whether the timeout actions ("Stuck? Click to
retry" and "Return to Login") are shown, which the source conditions on
`forceComplete`. -/
inductive RenderOutcome where
  | content
  | loadingView (withTimeoutActions : Bool)
  | adminRequiredView
  | sessionExpiredView
  | redirectToLogin
deriving Repr, DecidableEq

/-- `const shouldProceed = forceComplete || (!loading && !refreshing);` -/
def shouldProceed (s : GateState) : Bool :=
  s.forceComplete || (!s.loading && !s.refreshing)

/-- The render body of `ProtectedRoute`, branch for branch:
1. `if (session && (isAdmin || forceComplete) && shouldProceed)` → children;
2. `if (loading || refreshing)` → loading view (timeout actions iff
   `forceComplete`);
3. `if (session && !isAdmin)` → "Admin Access Required" view;
4. `if (refreshError || (!session && refreshAttempted))` → "Session
   Expired" view;
5. otherwise → `<Navigate to="/login" … />`. -/
def renderGate (s : GateState) : RenderOutcome :=
  if s.session && (s.isAdmin || s.forceComplete) && shouldProceed s then
    .content
  else if s.loading || s.refreshing then
    .loadingView s.forceComplete
  else if s.session && !s.isAdmin then
    .adminRequiredView
  else if s.refreshError || (!s.session && s.refreshAttempted) then
    .sessionExpiredView
  else
    .redirectToLogin

/-- Effect of the watchdog timer callback (set while `loading || refreshing`,
fires after 8000 ms): `setForceComplete(true); setRefreshing(false);`. -/
def watchdogFire (s : GateState) : GateState :=
  { s with forceComplete := true, refreshing := false }

/-- `shouldRefreshForPath` from `ProtectedRoute`: the RouteRefreshLedger is
the `lastPathRefreshTime` record; a missing key reads as `0`. -/
def shouldRefreshForPath (ledger : List (String × Nat)) (cfg : SessionConfig)
    (now : Nat) (path : String) : Bool :=
  let lastRefresh := (ledger.lookup path).getD 0
  decide (now - lastRefresh > cfg.ROUTE_REFRESH_INTERVAL)

/-- The guard of the mount/path-change refresh effect:
`if (!loading && (!session || !isAdmin) && !refreshAttempted &&
shouldRefreshForPath(location.pathname))`. -/
def shouldTriggerRefresh (s : GateState) (ledger : List (String × Nat))
    (cfg : SessionConfig) (now : Nat) (path : String) : Bool :=
  !s.loading && (!s.session || !s.isAdmin) && !s.refreshAttempted &&
    shouldRefreshForPath ledger cfg now path

/-- Effect of one completed `attemptRefresh` run on the gate state and the
ledger: on success the current time is recorded for the path
(`setLastPathRefreshTime`), on failure `setRefreshError(true)`; the
`finally` block runs `setRefreshing(false); setRefreshAttempted(true);`. -/
def recordAttempt (s : GateState) (ledger : List (String × Nat))
    (success : Bool) (now : Nat) (path : String) :
    GateState × List (String × Nat) :=
  ( { s with refreshAttempted := true, refreshing := false,
             refreshError := if success then s.refreshError else true },
    if success then (path, now) :: ledger else ledger )

/-! ## Diagnostic Utilities — `src/lib/debugUtils.ts`

Each backend call is represented by its outcome.  A `World` holds the
authoritative backend data (current session, `profiles` table); a `Faults`
record injects an error outcome into each individual call site, `none`
meaning the call succeeds against the `World`. -/

structure Session where
  userId : String
  userEmail : Option String
deriving Repr, DecidableEq

structure Profile where
  id : String
  email : Option String
  role : Option String
deriving Repr, DecidableEq

/-- One row of the `verify_admin_access` RPC result (the columns the
client reads). -/
structure AdminCheckRow where
  user_exists : Bool
  is_admin : Bool
  user_role : Option String
deriving Repr, DecidableEq

structure World where
  session : Option Session
  profiles : List Profile
deriving Repr, DecidableEq

structure Faults where
  sessionErr : Option String := none
  profileErr : Option String := none
  verifyErr : Option String := none
  updateErr : Option String := none
  grantErr : Option String := none
  upsertErr : Option String := none
deriving Repr, DecidableEq

/-- `profiles … .eq('id', userId)` row lookup. -/
def lookupProfile (ps : List Profile) (uid : String) : Option Profile :=
  ps.find? (fun p => p.id == uid)

/-- The row returned by the server-side `verify_admin_access(user_id)`
function (migration `admin user seeding` script): `user_exists` is row
existence, `is_admin` is `role = 'admin'` of that row (null when the row
is absent, which the client reads falsily), `user_role` its role. -/
def verifyRow (w : World) (uid : String) : AdminCheckRow :=
  { user_exists := (lookupProfile w.profiles uid).isSome
    is_admin := ((lookupProfile w.profiles uid).bind Profile.role) == some "admin"
    user_role := (lookupProfile w.profiles uid).bind Profile.role }

/-- Outcome of `supabase.from('profiles').select('*').eq('id', userId)
.single()`: a fault yields an error, and `.single()` itself errors when no
row matches, so a present row is the only success shape. -/
def fetchProfileResult (w : World) (f : Faults) (uid : String) :
    Except String (Option Profile) :=
  match f.profileErr with
  | some e => .error e
  | none =>
    match lookupProfile w.profiles uid with
    | none => .error "PGRST116: no rows returned"
    | some p => .ok (some p)

/-- Structured result of `debugAdminStatus`.  `adminCheckRows` is the raw
RPC payload returned on the profile-error path (`adminCheck:
adminCheckData`); `adminCheck` is the first row returned on the success
path (`adminCheck: adminCheckData?.[0]`). -/
structure DebugReport where
  success : Bool
  message : Option String := none
  errorMsg : Option String := none
  isAdmin : Option Bool := none
  profile : Option Profile := none
  adminCheckRows : Option (List AdminCheckRow) := none
  adminCheck : Option AdminCheckRow := none
deriving Repr, DecidableEq

/-- Embeds `debugAdminStatus` from `src/lib/debugUtils.ts`.  The
`try`/`catch` shell never fires in the embedding because every inner call
is already represented by an `Except` outcome that the function branches
on, exactly as the source branches on each `{ data, error }` pair. -/
def debugAdminStatus (w : World) (f : Faults) : DebugReport :=
  match f.sessionErr with
  | some e => { success := false, errorMsg := some e }
  | none =>
    match w.session with
    | none => { success := false, message := some "No active session" }
    | some sess =>
      match fetchProfileResult w f sess.userId with
      | .error pe =>
        -- fallback: verify_admin_access RPC; its own error is only logged
        let adminCheckData : Option (List AdminCheckRow) :=
          match f.verifyErr with
          | some _ => none
          | none => some [verifyRow w sess.userId]
        { success := false, errorMsg := some pe,
          adminCheckRows := adminCheckData }
      | .ok none => { success := false, message := some "No profile found" }
      | .ok (some profileData) =>
        -- double-check RPC; an RPC error is logged and otherwise ignored
        let adminCheckData : Option (List AdminCheckRow) :=
          match f.verifyErr with
          | some _ => none
          | none => some [verifyRow w sess.userId]
        { success := true
          isAdmin := some (profileData.role == some "admin")
          profile := some profileData
          adminCheck := adminCheckData.bind List.head? }

/-- Structured result of the repair/bypass utilities. -/
structure FixResult where
  success : Bool
  message : Option String := none
  errorMsg : Option String := none
deriving Repr, DecidableEq

/-- `update({ role: 'admin' }).eq('id', userId)`: sets the role of the
matching row; a zero-row match is not an error. -/
def applyRoleUpdate (ps : List Profile) (uid : String) : List Profile :=
  ps.map (fun p => if p.id == uid then { p with role := some "admin" } else p)

/-- Embeds `fixAdminStatus` from `src/lib/debugUtils.ts`, returning its
result together with the world after its write. -/
def fixAdminStatus (w : World) (f : Faults) : FixResult × World :=
  match f.sessionErr, w.session with
  | some _, _ =>
    ({ success := false, message := some "You must be logged in" }, w)
  | none, none =>
    ({ success := false, message := some "You must be logged in" }, w)
  | none, some sess =>
    match f.updateErr with
    | some e => ({ success := false, errorMsg := some e }, w)
    | none =>
      ({ success := true, message := some "Admin status updated successfully" },
       { w with profiles := applyRoleUpdate w.profiles sess.userId })

/-- JS `String.prototype.toLowerCase`, embedded structurally as a map of
`Char.toLower` over the character list (faithful on ASCII email text). -/
def toLowerCase (s : String) : String := ⟨s.data.map Char.toLower⟩

/-- Effect of the server-side `grant_admin_access(target_email)` RPC:
upserts an admin-role profile for the auth user with that email.  The
embedding keys the auth lookup on the current session's user, which is the
only caller configuration exercised by `ensureTheamalAdmin`. -/
def grantAdminByEmail (ps : List Profile) (uid : String) (email : String) :
    List Profile :=
  match ps.find? (fun p => p.id == uid) with
  | some _ =>
    ps.map (fun p =>
      if p.id == uid then { p with role := some "admin", email := some email }
      else p)
  | none => { id := uid, email := some email, role := some "admin" } :: ps

/-- `upsert({ id, email: 'theamal11z@rex.com', role: 'admin', … })` on the
`profiles` primary key. -/
def upsertTheamalProfile (ps : List Profile) (uid : String) : List Profile :=
  grantAdminByEmail ps uid "theamal11z@rex.com"

/-- Embeds `ensureTheamalAdmin` from `src/lib/debugUtils.ts`: requires a
session, acts only for the hard-coded email (compared lower-cased), tries
the `grant_admin_access` RPC (errors caught and logged), then upserts the
profile directly; the trailing `verify_admin_access` call only logs. -/
def ensureTheamalAdmin (w : World) (f : Faults) : FixResult × World :=
  match f.sessionErr with
  | some e => ({ success := false, errorMsg := some e }, w)
  | none =>
    match w.session with
    | none => ({ success := false, message := some "No active session" }, w)
    | some sess =>
      let emailOk := match sess.userEmail with
        | none => false
        | some email => toLowerCase email == "theamal11z@rex.com"
      if !emailOk then
        ({ success := false, message := some "Not theamal user" }, w)
      else
        let wAfterRpc : World :=
          match f.grantErr with
          | some _ => w
          | none =>
            { w with profiles :=
                grantAdminByEmail w.profiles sess.userId "theamal11z@rex.com" }
        match f.upsertErr with
        | some e => ({ success := false, errorMsg := some e }, wAfterRpc)
        | none =>
          ({ success := true,
             message := some "Admin status updated successfully" },
           { wAfterRpc with profiles :=
               upsertTheamalProfile wAfterRpc.profiles sess.userId })

/-- Per-tab session storage, a key/value list; later writes shadow. -/
def SessionStorage := List (String × String)

/-- Embeds `forceAdminAccessForTesting`: writes the `FORCE_ADMIN_ACCESS`
flag; `storageErr` injects a thrown `sessionStorage.setItem` failure,
which the `catch` turns into `{ success: false, error }`. -/
def forceAdminAccessForTesting (storage : SessionStorage)
    (storageErr : Option String) : FixResult × SessionStorage :=
  match storageErr with
  | some e => ({ success := false, errorMsg := some e }, storage)
  | none =>
    ({ success := true, message := some "Admin access forced for testing" },
     ("FORCE_ADMIN_ACCESS", "true") :: storage)

/-- Embeds `isAdminAccessForced`: reads the flag back. -/
def isAdminAccessForced (storage : SessionStorage) : Bool :=
  (List.lookup "FORCE_ADMIN_ACCESS" storage) == some "true"

/-! ## Auth Lifecycle Manager refresh — modelled from the spec

`AuthContext.tsx` (the Auth Lifecycle Manager, owner of `refreshSession`)
is not among the provided source files; only its consumer
(`ProtectedRoute`) and documentation reference it.  The single-flight
refresh discipline is therefore modelled from the spec. -/

/-- Modelled from the spec: the refresh-serialization state of the Auth
Lifecycle Manager (`AuthContext.tsx`, missing from the sources).
`inFlightId` identifies the network refresh request currently
outstanding, if any; `networkCalls` counts network refresh calls issued;
`nextId` numbers requests. -/
structure RefreshManager where
  inFlightId : Option Nat
  networkCalls : Nat
  nextId : Nat
deriving Repr, DecidableEq

/-- Modelled from the spec: one logical `refreshSession()` call.  "Refresh
calls are serialized (single-flight) — a second logical request observes
the outcome of an in-flight request rather than issuing a duplicate
network call."  Returns the updated manager and the id of the network
request whose outcome this caller observes. -/
def refreshSessionCall (m : RefreshManager) : RefreshManager × Nat :=
  match m.inFlightId with
  | some rid => (m, rid)
  | none =>
    ({ inFlightId := some m.nextId, networkCalls := m.networkCalls + 1,
       nextId := m.nextId + 1 }, m.nextId)

/-- Modelled from the spec: the in-flight request settles (success or
failure), leaving no request outstanding. -/
def refreshSettles (m : RefreshManager) : RefreshManager :=
  { m with inFlightId := none }

/-! ## Helper lemmas -/

/-- Looking up `uid` in a list where exactly the rows with id `uid` were
rewritten by an id-preserving `g` returns the original row with `g`
applied. -/
theorem lookupProfile_map_update (ps : List Profile) (uid : String)
    (g : Profile → Profile) (hg : ∀ p, (g p).id = p.id) :
    lookupProfile (ps.map (fun p => if p.id == uid then g p else p)) uid =
      (lookupProfile ps uid).map g := by
  induction ps with
  | nil => rfl
  | cons p ps ih =>
    simp only [lookupProfile, List.map_cons] at *
    by_cases h : (p.id == uid) = true
    · have hgid : ((g p).id == uid) = true := by rw [hg]; exact h
      rw [if_pos h]
      simp only [List.find?_cons, hgid, h]
      rfl
    · have h' : (p.id == uid) = false := by
        cases hb : (p.id == uid) with
        | true => exact absurd hb h
        | false => rfl
      rw [if_neg h]
      simp only [List.find?_cons, h']
      exact ih

/-- Looking up the updated user after `applyRoleUpdate` returns the
original row with role "admin". -/
theorem lookupProfile_applyRoleUpdate (ps : List Profile) (uid : String) :
    lookupProfile (applyRoleUpdate ps uid) uid =
      (lookupProfile ps uid).map (fun p => { p with role := some "admin" }) :=
  lookupProfile_map_update ps uid _ (fun _ => rfl)

/-- After `grantAdminByEmail`, the row for `uid` exists and carries role
"admin" and the granted email. -/
theorem lookupProfile_grantAdminByEmail (ps : List Profile) (uid em : String) :
    ∃ p, lookupProfile (grantAdminByEmail ps uid em) uid = some p ∧
      p.role = some "admin" ∧ p.email = some em := by
  unfold grantAdminByEmail
  cases hfind : ps.find? (fun p => p.id == uid) with
  | none =>
    refine ⟨{ id := uid, email := some em, role := some "admin" }, ?_, rfl, rfl⟩
    simp [lookupProfile, List.find?_cons]
  | some p0 =>
    have hmap := lookupProfile_map_update ps uid
      (fun p => { p with role := some "admin", email := some em })
      (fun _ => rfl)
    rw [hmap, show lookupProfile ps uid = some p0 from hfind]
    exact ⟨_, rfl, rfl, rfl⟩

/-! ## Claims -/

/-- Claim C7: `useSessionConfig` always returns the record derived from a
1-day session duration: 86400 seconds, 86400000 ms, human label "1 day",
refresh and route-refresh intervals of 21600000 ms (6 hours), minimum
refresh interval 1800000 ms (30 minutes); seconds, milliseconds and human
label are consistent with the single day count. -/
theorem C7_session_config_constants :
    useSessionConfig =
      { SESSION_DURATION_SECONDS := 86400
        SESSION_DURATION_MS := 86400000
        SESSION_DURATION_HUMAN := "1 day"
        SESSION_REFRESH_INTERVAL := 21600000
        ROUTE_REFRESH_INTERVAL := 21600000
        MIN_REFRESH_INTERVAL := 1800000 } ∧
    useSessionConfig.SESSION_DURATION_SECONDS = 1 * 24 * 60 * 60 ∧
    useSessionConfig.SESSION_DURATION_MS =
      useSessionConfig.SESSION_DURATION_SECONDS * 1000 ∧
    useSessionConfig.SESSION_DURATION_HUMAN = toString 1 ++ " day" := by
  exact ⟨rfl, rfl, rfl, rfl⟩

/-- Claim C1 (counterexample): the original claim says protected content is
rendered iff session present and (admin flag true or test-bypass flag
set), and in particular never when the admin flag is false and the bypass
flag unset.  The state below is a terminal render (loading and refreshing
finished) with admin flag explicitly false and the bypass flag unset, yet
`ProtectedRoute` renders protected content because the watchdog flag
`forceComplete` is set. -/
theorem C1_counterexample :
    let s : GateState :=
      { session := true, isAdmin := false, loading := false,
        refreshing := false, refreshAttempted := false,
        refreshError := false, forceComplete := true,
        forceAdminFlag := false }
    s.loading = false ∧ s.refreshing = false ∧ s.isAdmin = false ∧
    s.forceAdminFlag = false ∧ renderGate s = .content := by
  decide

/-- Claim C1 (amended): for every terminal render (loading and refreshing
finished), protected content is rendered iff a session is present AND (the
admin flag is true OR the watchdog force-complete flag is set); the local
test-bypass flag is never consulted by the render decision. -/
theorem C1_terminal_render_decision (s : GateState)
    (hl : s.loading = false) (hr : s.refreshing = false) :
    (renderGate s = .content ↔
      s.session = true ∧ (s.isAdmin = true ∨ s.forceComplete = true)) ∧
    (∀ b : Bool, renderGate { s with forceAdminFlag := b } = renderGate s) := by
  obtain ⟨se, ad, lo, re, ra, rerr, fc, fa⟩ := s
  simp only at hl hr
  subst hl; subst hr
  revert se ad ra rerr fc fa
  decide

/-- Claim C1 (witness for the amended theorem). -/
theorem C1_terminal_render_decision_witness :
    (renderGate
        { session := true, isAdmin := true, loading := false,
          refreshing := false, refreshAttempted := false,
          refreshError := false, forceComplete := false,
          forceAdminFlag := false } = .content ↔
      true = true ∧ (true = true ∨ false = true)) ∧
    (∀ b : Bool,
      renderGate
        { session := true, isAdmin := true, loading := false,
          refreshing := false, refreshAttempted := false,
          refreshError := false, forceComplete := false,
          forceAdminFlag := b } =
      renderGate
        { session := true, isAdmin := true, loading := false,
          refreshing := false, refreshAttempted := false,
          refreshError := false, forceComplete := false,
          forceAdminFlag := false }) :=
  C1_terminal_render_decision
    { session := true, isAdmin := true, loading := false,
      refreshing := false, refreshAttempted := false,
      refreshError := false, forceComplete := false,
      forceAdminFlag := false } rfl rfl

/-- Claim C2 (counterexample): the original claim says the watchdog timeout
never silently grants access to protected content as a consequence of the
timeout alone.  In the state below a refresh is outstanding for a
signed-in non-admin user; before the watchdog fires the gate shows the
loading view, and firing the watchdog alone flips the render to protected
content. -/
theorem C2_counterexample :
    let s : GateState :=
      { session := true, isAdmin := false, loading := false,
        refreshing := true, refreshAttempted := true,
        refreshError := false, forceComplete := false,
        forceAdminFlag := false }
    s.refreshing = true ∧ s.isAdmin = false ∧
    renderGate s ≠ .content ∧
    renderGate (watchdogFire s) = .content := by
  decide

/-- Claim C2 (amended): for every refresh still outstanding (or auth still
loading) when the watchdog fires, the gate terminates the refreshing state
and sets the force-complete flag; any loading view rendered after the
timeout offers the manual retry and return-to-login actions; the timeout
never grants access to protected content without a session — but (per the
counterexample) with a session present it can grant access even when the
admin flag is false. -/
theorem C2_watchdog_timeout (s : GateState)
    (h : s.loading = true ∨ s.refreshing = true) :
    (watchdogFire s).refreshing = false ∧
    (watchdogFire s).forceComplete = true ∧
    (∀ b : Bool, renderGate (watchdogFire s) = .loadingView b → b = true) ∧
    (renderGate (watchdogFire s) = .content → s.session = true) := by
  obtain ⟨se, ad, lo, re, ra, rerr, fc, fa⟩ := s
  revert h
  revert se ad lo re ra rerr fc fa
  decide

/-- Claim C2 (witness for the amended theorem). -/
theorem C2_watchdog_timeout_witness :
    (watchdogFire
        { session := false, isAdmin := false, loading := false,
          refreshing := true, refreshAttempted := true,
          refreshError := false, forceComplete := false,
          forceAdminFlag := false }).refreshing = false ∧
    (watchdogFire
        { session := false, isAdmin := false, loading := false,
          refreshing := true, refreshAttempted := true,
          refreshError := false, forceComplete := false,
          forceAdminFlag := false }).forceComplete = true ∧
    (∀ b : Bool,
      renderGate (watchdogFire
        { session := false, isAdmin := false, loading := false,
          refreshing := true, refreshAttempted := true,
          refreshError := false, forceComplete := false,
          forceAdminFlag := false }) = .loadingView b → b = true) ∧
    (renderGate (watchdogFire
        { session := false, isAdmin := false, loading := false,
          refreshing := true, refreshAttempted := true,
          refreshError := false, forceComplete := false,
          forceAdminFlag := false }) = .content →
      GateState.session
        { session := false, isAdmin := false, loading := false,
          refreshing := true, refreshAttempted := true,
          refreshError := false, forceComplete := false,
          forceAdminFlag := false } = true) :=
  C2_watchdog_timeout
    { session := false, isAdmin := false, loading := false,
      refreshing := true, refreshAttempted := true,
      refreshError := false, forceComplete := false,
      forceAdminFlag := false } (Or.inr rfl)

/-- Claim C9: in every gate state without a session, protected content is
never rendered — no flag (including the watchdog's `forceComplete`) can
grant access without a session — and the outcome is always a loading view,
the session-expired view, or the redirect to login. -/
theorem C9_no_session_never_content (s : GateState)
    (h : s.session = false) :
    renderGate s ≠ .content ∧ renderGate s ≠ .adminRequiredView ∧
    (renderGate s = .loadingView s.forceComplete ∨
     renderGate s = .sessionExpiredView ∨
     renderGate s = .redirectToLogin) := by
  obtain ⟨se, ad, lo, re, ra, rerr, fc, fa⟩ := s
  simp only at h
  subst h
  revert ad lo re ra rerr fc fa
  decide

/-- Claim C9 (witness). -/
theorem C9_no_session_never_content_witness :
    renderGate
      { session := false, isAdmin := false, loading := false,
        refreshing := false, refreshAttempted := false,
        refreshError := false, forceComplete := true,
        forceAdminFlag := true } ≠ .content ∧
    renderGate
      { session := false, isAdmin := false, loading := false,
        refreshing := false, refreshAttempted := false,
        refreshError := false, forceComplete := true,
        forceAdminFlag := true } ≠ .adminRequiredView ∧
    (renderGate
      { session := false, isAdmin := false, loading := false,
        refreshing := false, refreshAttempted := false,
        refreshError := false, forceComplete := true,
        forceAdminFlag := true } = .loadingView
          (GateState.forceComplete
            { session := false, isAdmin := false, loading := false,
              refreshing := false, refreshAttempted := false,
              refreshError := false, forceComplete := true,
              forceAdminFlag := true }) ∨
     renderGate
      { session := false, isAdmin := false, loading := false,
        refreshing := false, refreshAttempted := false,
        refreshError := false, forceComplete := true,
        forceAdminFlag := true } = .sessionExpiredView ∨
     renderGate
      { session := false, isAdmin := false, loading := false,
        refreshing := false, refreshAttempted := false,
        refreshError := false, forceComplete := true,
        forceAdminFlag := true } = .redirectToLogin) :=
  C9_no_session_never_content
    { session := false, isAdmin := false, loading := false,
      refreshing := false, refreshAttempted := false,
      refreshError := false, forceComplete := true,
      forceAdminFlag := true } rfl

/-- Claim C3: the gate triggers `refreshSession()` on mount/path-change
only when (no session or the admin flag is not known true) and no refresh
was attempted yet this process and the path's last ledger entry is older
than `ROUTE_REFRESH_INTERVAL`; after the attempt completes (any outcome) a
second navigation to the same path — at any later time, in particular
within `MIN_REFRESH_INTERVAL` — triggers zero additional refreshes, and a
successful refresh records the current timestamp against the path. -/
theorem C3_route_refresh_throttle (s : GateState)
    (ledger : List (String × Nat)) (now now2 : Nat) (path : String)
    (htrig : shouldTriggerRefresh s ledger useSessionConfig now path = true) :
    ((s.session = false ∨ s.isAdmin = false) ∧ s.refreshAttempted = false ∧
      now - ((ledger.lookup path).getD 0) >
        useSessionConfig.ROUTE_REFRESH_INTERVAL) ∧
    (∀ outcome : Bool,
      shouldTriggerRefresh (recordAttempt s ledger outcome now path).1
        (recordAttempt s ledger outcome now path).2
        useSessionConfig now2 path = false) ∧
    (recordAttempt s ledger true now path).2.lookup path = some now := by
  simp only [shouldTriggerRefresh, shouldRefreshForPath, Bool.and_eq_true,
    Bool.or_eq_true, Bool.not_eq_true', decide_eq_true_eq] at htrig
  obtain ⟨⟨⟨hload, hsa⟩, hatt⟩, hthrottle⟩ := htrig
  refine ⟨⟨hsa, hatt, hthrottle⟩, ?_, ?_⟩
  · intro outcome
    simp [shouldTriggerRefresh, recordAttempt]
  · simp [recordAttempt, List.lookup]

/-- Claim C3 (witness): a fresh gate state on path "/dashboard" with an
empty ledger at time 21600001 triggers a refresh; after the successful
attempt, a second navigation at time 21600002 (well within
`MIN_REFRESH_INTERVAL`) triggers nothing, and the ledger holds the
recorded time. -/
theorem C3_route_refresh_throttle_witness :
    ((GateState.session
        { session := false, isAdmin := false, loading := false,
          refreshing := false, refreshAttempted := false,
          refreshError := false, forceComplete := false,
          forceAdminFlag := false } = false ∨
      GateState.isAdmin
        { session := false, isAdmin := false, loading := false,
          refreshing := false, refreshAttempted := false,
          refreshError := false, forceComplete := false,
          forceAdminFlag := false } = false) ∧
      GateState.refreshAttempted
        { session := false, isAdmin := false, loading := false,
          refreshing := false, refreshAttempted := false,
          refreshError := false, forceComplete := false,
          forceAdminFlag := false } = false ∧
      21600001 - ((([] : List (String × Nat)).lookup "/dashboard").getD 0) >
        useSessionConfig.ROUTE_REFRESH_INTERVAL) ∧
    (∀ outcome : Bool,
      shouldTriggerRefresh
        (recordAttempt
          { session := false, isAdmin := false, loading := false,
            refreshing := false, refreshAttempted := false,
            refreshError := false, forceComplete := false,
            forceAdminFlag := false } [] outcome 21600001 "/dashboard").1
        (recordAttempt
          { session := false, isAdmin := false, loading := false,
            refreshing := false, refreshAttempted := false,
            refreshError := false, forceComplete := false,
            forceAdminFlag := false } [] outcome 21600001 "/dashboard").2
        useSessionConfig 21600002 "/dashboard" = false) ∧
    (recordAttempt
        { session := false, isAdmin := false, loading := false,
          refreshing := false, refreshAttempted := false,
          refreshError := false, forceComplete := false,
          forceAdminFlag := false } [] true 21600001 "/dashboard").2.lookup
      "/dashboard" = some 21600001 :=
  C3_route_refresh_throttle
    { session := false, isAdmin := false, loading := false,
      refreshing := false, refreshAttempted := false,
      refreshError := false, forceComplete := false,
      forceAdminFlag := false } [] 21600001 21600002 "/dashboard" (by decide)

/-- Claim C4: on the success path of `debugAdminStatus` (session present,
profile row fetched), the reported admin flag is `true` exactly when the
profile's role is the literal "admin", and `false` for every other role,
including a null/absent role. -/
theorem C4_isAdmin_iff_role_admin (w : World) (f : Faults) (sess : Session)
    (prof : Profile)
    (hserr : f.sessionErr = none) (hs : w.session = some sess)
    (hperr : f.profileErr = none)
    (hprof : lookupProfile w.profiles sess.userId = some prof) :
    ((debugAdminStatus w f).success = true ∧
      (debugAdminStatus w f).isAdmin = some (prof.role == some "admin")) ∧
    (prof.role = some "admin" → (debugAdminStatus w f).isAdmin = some true) ∧
    (prof.role ≠ some "admin" → (debugAdminStatus w f).isAdmin = some false) := by
  have key : debugAdminStatus w f =
      { success := true
        isAdmin := some (prof.role == some "admin")
        profile := some prof
        adminCheck := (match f.verifyErr with
          | some _ => (none : Option (List AdminCheckRow))
          | none => some [verifyRow w sess.userId]).bind List.head? } := by
    have hfetch : fetchProfileResult w f sess.userId = .ok (some prof) := by
      simp only [fetchProfileResult, hperr, hprof]
    simp only [debugAdminStatus, hserr, hs, hfetch]
  constructor
  · exact ⟨by rw [key], by rw [key]⟩
  constructor
  · intro h; rw [key]; simp [h]
  · intro h; rw [key]; simp [h]

/-- Claim C4 (witness): a world whose profile row for the current user has
role "admin" reports `isAdmin = some true`. -/
theorem C4_isAdmin_iff_role_admin_witness :
    ((debugAdminStatus
        { session := some { userId := "u1", userEmail := some "a@b.c" },
          profiles := [{ id := "u1", email := some "a@b.c",
                         role := some "admin" }] } {}).success = true ∧
      (debugAdminStatus
        { session := some { userId := "u1", userEmail := some "a@b.c" },
          profiles := [{ id := "u1", email := some "a@b.c",
                         role := some "admin" }] } {}).isAdmin =
        some (Profile.role { id := "u1", email := some "a@b.c",
                             role := some "admin" } == some "admin")) ∧
    (Profile.role { id := "u1", email := some "a@b.c",
                    role := some "admin" } = some "admin" →
      (debugAdminStatus
        { session := some { userId := "u1", userEmail := some "a@b.c" },
          profiles := [{ id := "u1", email := some "a@b.c",
                         role := some "admin" }] } {}).isAdmin = some true) ∧
    (Profile.role { id := "u1", email := some "a@b.c",
                    role := some "admin" } ≠ some "admin" →
      (debugAdminStatus
        { session := some { userId := "u1", userEmail := some "a@b.c" },
          profiles := [{ id := "u1", email := some "a@b.c",
                         role := some "admin" }] } {}).isAdmin = some false) :=
  C4_isAdmin_iff_role_admin
    { session := some { userId := "u1", userEmail := some "a@b.c" },
      profiles := [{ id := "u1", email := some "a@b.c",
                     role := some "admin" }] } {}
    { userId := "u1", userEmail := some "a@b.c" }
    { id := "u1", email := some "a@b.c", role := some "admin" }
    rfl rfl rfl (by decide)

/-- Claim C5 (counterexample): the original claim says every error raised
by an underlying backend call makes the operation return a
`{success:false, error}` value.  Here the secondary `verify_admin_access`
RPC errors on `debugAdminStatus`'s success path, yet the operation returns
`success := true` with no error recorded: that error is only logged and
swallowed. -/
theorem C5_counterexample :
    Faults.verifyErr { verifyErr := some "rpc failure" } = some "rpc failure" ∧
    (debugAdminStatus
      { session := some { userId := "u1", userEmail := some "a@b.c" },
        profiles := [{ id := "u1", email := some "a@b.c",
                       role := some "admin" }] }
      { verifyErr := some "rpc failure" }).success = true ∧
    (debugAdminStatus
      { session := some { userId := "u1", userEmail := some "a@b.c" },
        profiles := [{ id := "u1", email := some "a@b.c",
                       role := some "admin" }] }
      { verifyErr := some "rpc failure" }).errorMsg = none := by
  decide

/-- Claim C5 (amended): every Diagnostic Utilities operation returns
normally with a structured result — no exception propagates.  An error on
the primary path (session lookup, profile fetch, role write, storage
write) yields a `{success:false, error}`-shaped value; errors of the
secondary verify/grant RPC cross-checks are caught, logged and swallowed,
so the operation may still report success. -/
theorem C5_structured_errors (w : World) (f : Faults)
    (storage : SessionStorage) :
    (∀ e, f.sessionErr = some e →
      (debugAdminStatus w f).success = false ∧
      (debugAdminStatus w f).errorMsg = some e) ∧
    (∀ e sess, f.sessionErr = none → w.session = some sess →
      f.profileErr = some e →
      (debugAdminStatus w f).success = false ∧
      (debugAdminStatus w f).errorMsg = some e) ∧
    (∀ e, f.sessionErr = some e → (fixAdminStatus w f).1.success = false) ∧
    (∀ e sess, f.sessionErr = none → w.session = some sess →
      f.updateErr = some e →
      (fixAdminStatus w f).1.success = false ∧
      (fixAdminStatus w f).1.errorMsg = some e) ∧
    (∀ e, (forceAdminAccessForTesting storage (some e)).1.success = false ∧
      (forceAdminAccessForTesting storage (some e)).1.errorMsg = some e) := by
  refine ⟨?_, ?_, ?_, ?_, ?_⟩
  · intro e he
    constructor <;> simp [debugAdminStatus, he]
  · intro e sess hserr hs hpe
    have hfetch : fetchProfileResult w f sess.userId = .error e := by
      simp only [fetchProfileResult, hpe]
    constructor <;> simp [debugAdminStatus, hserr, hs, hfetch]
  · intro e he
    simp [fixAdminStatus, he]
  · intro e sess hserr hs hue
    constructor <;> simp [fixAdminStatus, hserr, hs, hue]
  · intro e
    exact ⟨rfl, rfl⟩

/-- Claim C5 (witness for the amended theorem). -/
theorem C5_structured_errors_witness :
    ((debugAdminStatus { session := none, profiles := [] }
        { sessionErr := some "boom" }).success = false ∧
      (debugAdminStatus { session := none, profiles := [] }
        { sessionErr := some "boom" }).errorMsg = some "boom") ∧
    ((forceAdminAccessForTesting [] (some "storage denied")).1.success =
        false ∧
      (forceAdminAccessForTesting [] (some "storage denied")).1.errorMsg =
        some "storage denied") :=
  ⟨(C5_structured_errors { session := none, profiles := [] }
      { sessionErr := some "boom" } []).1 "boom" rfl,
   (C5_structured_errors { session := none, profiles := [] }
      { sessionErr := some "boom" } []).2.2.2.2 "storage denied"⟩

/-- Claim C6 (counterexample): the original claim promises the round-trip
`fixAdminStatus` then `debugAdminStatus` reports `isAdmin = true` given an
active session and a successful role-update write.  When the current user
has no profile row, the `update … eq('id', …)` write matches zero rows and
still succeeds, so `fixAdminStatus` reports success, yet the immediate
`debugAdminStatus` (whose `.single()` fetch finds no row) does not report
`isAdmin = true`. -/
theorem C6_counterexample :
    (fixAdminStatus
      { session := some { userId := "u1", userEmail := some "u@x.com" },
        profiles := [] } {}).1.success = true ∧
    (debugAdminStatus
      (fixAdminStatus
        { session := some { userId := "u1", userEmail := some "u@x.com" },
          profiles := [] } {}).2 {}).isAdmin ≠ some true ∧
    (debugAdminStatus
      (fixAdminStatus
        { session := some { userId := "u1", userEmail := some "u@x.com" },
          profiles := [] } {}).2 {}).success = false := by
  decide

/-- Claim C6 (amended): given an active session for user u whose profile
row exists (so the role-update write matches the row) and error-free
calls, `fixAdminStatus` succeeds, unconditionally sets that row's role to
"admin", and an immediate `debugAdminStatus` reports `isAdmin = true`;
`fixAdminStatus` fails only when the session lookup errors, no session is
active, or the write errors. -/
theorem C6_roundtrip_repair (w : World) (f : Faults) (sess : Session)
    (prof : Profile)
    (hserr : f.sessionErr = none) (hs : w.session = some sess)
    (hupd : f.updateErr = none) (hperr : f.profileErr = none)
    (hprof : lookupProfile w.profiles sess.userId = some prof) :
    (fixAdminStatus w f).1.success = true ∧
    lookupProfile (fixAdminStatus w f).2.profiles sess.userId =
      some { prof with role := some "admin" } ∧
    (debugAdminStatus (fixAdminStatus w f).2 f).isAdmin = some true ∧
    (∀ w' f', (fixAdminStatus w' f').1.success = false →
      f'.sessionErr ≠ none ∨ w'.session = none ∨ f'.updateErr ≠ none) := by
  have hfix : fixAdminStatus w f =
      ({ success := true,
         message := some "Admin status updated successfully" },
       { w with profiles := applyRoleUpdate w.profiles sess.userId }) := by
    simp only [fixAdminStatus, hserr, hs, hupd]
  have hlook :
      lookupProfile (applyRoleUpdate w.profiles sess.userId) sess.userId =
        some { prof with role := some "admin" } := by
    rw [lookupProfile_applyRoleUpdate, hprof]; rfl
  refine ⟨by rw [hfix], ?_, ?_, ?_⟩
  · rw [hfix]; exact hlook
  · rw [hfix]
    have hfetch : fetchProfileResult
        { session := some sess,
          profiles := applyRoleUpdate w.profiles sess.userId } f
        sess.userId = .ok (some { prof with role := some "admin" }) := by
      simp only [fetchProfileResult, hperr, hlook]
    simp [debugAdminStatus, hserr, hs, hfetch]
  · intro w' f' hfail
    cases hse : f'.sessionErr with
    | some e => exact Or.inl (by simp [hse])
    | none =>
      cases hsw : w'.session with
      | none => exact Or.inr (Or.inl rfl)
      | some sess' =>
        cases hue : f'.updateErr with
        | some e2 => exact Or.inr (Or.inr (by simp [hue]))
        | none => simp [fixAdminStatus, hse, hsw, hue] at hfail

/-- Claim C6 (witness for the amended theorem). -/
theorem C6_roundtrip_repair_witness :
    (fixAdminStatus
      { session := some { userId := "u1", userEmail := some "e@x.com" },
        profiles := [{ id := "u1", email := some "e@x.com",
                       role := some "customer" }] } {}).1.success = true ∧
    lookupProfile
      (fixAdminStatus
        { session := some { userId := "u1", userEmail := some "e@x.com" },
          profiles := [{ id := "u1", email := some "e@x.com",
                         role := some "customer" }] } {}).2.profiles
      (Session.userId { userId := "u1", userEmail := some "e@x.com" }) =
      some { id := "u1", email := some "e@x.com", role := some "admin" } ∧
    (debugAdminStatus
      (fixAdminStatus
        { session := some { userId := "u1", userEmail := some "e@x.com" },
          profiles := [{ id := "u1", email := some "e@x.com",
                         role := some "customer" }] } {}).2 {}).isAdmin =
      some true :=
  ⟨(C6_roundtrip_repair
      { session := some { userId := "u1", userEmail := some "e@x.com" },
        profiles := [{ id := "u1", email := some "e@x.com",
                       role := some "customer" }] } {}
      { userId := "u1", userEmail := some "e@x.com" }
      { id := "u1", email := some "e@x.com", role := some "customer" }
      rfl rfl rfl rfl (by decide)).1,
   (C6_roundtrip_repair
      { session := some { userId := "u1", userEmail := some "e@x.com" },
        profiles := [{ id := "u1", email := some "e@x.com",
                       role := some "customer" }] } {}
      { userId := "u1", userEmail := some "e@x.com" }
      { id := "u1", email := some "e@x.com", role := some "customer" }
      rfl rfl rfl rfl (by decide)).2.1,
   (C6_roundtrip_repair
      { session := some { userId := "u1", userEmail := some "e@x.com" },
        profiles := [{ id := "u1", email := some "e@x.com",
                       role := some "customer" }] } {}
      { userId := "u1", userEmail := some "e@x.com" }
      { id := "u1", email := some "e@x.com", role := some "customer" }
      rfl rfl rfl rfl (by decide)).2.2.1⟩

/-- Claim C10: `ensureTheamalAdmin` escalates only the hard-coded account:
with an active session whose email is absent or differs case-insensitively
from "theamal11z@rex.com" it returns `success := false` and performs no
write (the world is unchanged); any change to the world implies the
session email lower-cases to exactly that address; and for that address
(with the upsert succeeding) the user's profile row ends with role
"admin". -/
theorem C10_theamal_email_gate (w : World) (f : Faults) (sess : Session)
    (hserr : f.sessionErr = none) (hs : w.session = some sess) :
    ((∀ e, sess.userEmail = some e → toLowerCase e ≠ "theamal11z@rex.com") →
      (ensureTheamalAdmin w f).1.success = false ∧
      (ensureTheamalAdmin w f).2 = w) ∧
    ((ensureTheamalAdmin w f).2 ≠ w →
      sess.userEmail.map toLowerCase = some "theamal11z@rex.com") ∧
    (∀ e, sess.userEmail = some e → toLowerCase e = "theamal11z@rex.com" →
      f.upsertErr = none →
      ∃ p, lookupProfile (ensureTheamalAdmin w f).2.profiles sess.userId =
        some p ∧ p.role = some "admin" ∧
        p.email = some "theamal11z@rex.com") := by
  have hrefuse : ∀ e, sess.userEmail = some e →
      toLowerCase e ≠ "theamal11z@rex.com" →
      ensureTheamalAdmin w f =
        ({ success := false, message := some "Not theamal user" }, w) := by
    intro e he hne
    have hbeq : (toLowerCase e == "theamal11z@rex.com") = false := by
      simp [hne]
    simp [ensureTheamalAdmin, hserr, hs, he, hbeq]
  have hnomail : sess.userEmail = none →
      ensureTheamalAdmin w f =
        ({ success := false, message := some "Not theamal user" }, w) := by
    intro he
    simp [ensureTheamalAdmin, hserr, hs, he]
  refine ⟨?_, ?_, ?_⟩
  · intro hne
    cases hmail : sess.userEmail with
    | none => rw [hnomail hmail]; exact ⟨rfl, rfl⟩
    | some e => rw [hrefuse e hmail (hne e hmail)]; exact ⟨rfl, rfl⟩
  · intro hchange
    cases hmail : sess.userEmail with
    | none => exact absurd (by rw [hnomail hmail]) hchange
    | some e =>
      by_cases hlow : toLowerCase e = "theamal11z@rex.com"
      · simp [hmail, hlow]
      · exact absurd (by rw [hrefuse e hmail hlow]) hchange
  · intro e he hlow hup
    have hbeq : (toLowerCase e == "theamal11z@rex.com") = true := by
      simp [hlow]
    cases hg : f.grantErr with
    | none =>
      have hrun : (ensureTheamalAdmin w f).2.profiles =
          upsertTheamalProfile
            (grantAdminByEmail w.profiles sess.userId "theamal11z@rex.com")
            sess.userId := by
        simp [ensureTheamalAdmin, hserr, hs, he, hbeq, hg, hup]
      rw [hrun]
      exact lookupProfile_grantAdminByEmail _ _ _
    | some ge =>
      have hrun : (ensureTheamalAdmin w f).2.profiles =
          upsertTheamalProfile w.profiles sess.userId := by
        simp [ensureTheamalAdmin, hserr, hs, he, hbeq, hg, hup]
      rw [hrun]
      exact lookupProfile_grantAdminByEmail _ _ _

/-- Claim C10 (witness): a session for "Other@X.com" is refused with no
write. -/
theorem C10_theamal_email_gate_witness :
    (ensureTheamalAdmin
      { session := some { userId := "u2", userEmail := some "Other@X.com" },
        profiles := [] } {}).1.success = false ∧
    (ensureTheamalAdmin
      { session := some { userId := "u2", userEmail := some "Other@X.com" },
        profiles := [] } {}).2 =
      { session := some { userId := "u2", userEmail := some "Other@X.com" },
        profiles := [] } :=
  (C10_theamal_email_gate
    { session := some { userId := "u2", userEmail := some "Other@X.com" },
      profiles := [] } {}
    { userId := "u2", userEmail := some "Other@X.com" } rfl rfl).1
    (by
      intro e he
      injection he with h
      subst h
      decide)

/-- Claim C8 (modelled from the spec, `AuthContext.tsx` being absent from
the sources): when a `refreshSession()` call arrives while a refresh is
already in flight, exactly one network refresh call is issued for the
pair, and the second caller observes the very request the first caller
started rather than a duplicate. -/
theorem C8_single_flight_refresh (m : RefreshManager)
    (h : m.inFlightId = none) :
    (refreshSessionCall m).1.networkCalls = m.networkCalls + 1 ∧
    (refreshSessionCall (refreshSessionCall m).1).1.networkCalls =
      m.networkCalls + 1 ∧
    (refreshSessionCall (refreshSessionCall m).1).2 =
      (refreshSessionCall m).2 ∧
    (refreshSessionCall (refreshSessionCall m).1).1 =
      (refreshSessionCall m).1 := by
  simp [refreshSessionCall, h]

/-- Claim C8 (witness). -/
theorem C8_single_flight_refresh_witness :
    (refreshSessionCall
      { inFlightId := none, networkCalls := 0, nextId := 0 }).1.networkCalls =
      RefreshManager.networkCalls
        { inFlightId := none, networkCalls := 0, nextId := 0 } + 1 ∧
    (refreshSessionCall
      (refreshSessionCall
        { inFlightId := none, networkCalls := 0,
          nextId := 0 }).1).1.networkCalls =
      RefreshManager.networkCalls
        { inFlightId := none, networkCalls := 0, nextId := 0 } + 1 ∧
    (refreshSessionCall
      (refreshSessionCall
        { inFlightId := none, networkCalls := 0, nextId := 0 }).1).2 =
      (refreshSessionCall
        { inFlightId := none, networkCalls := 0, nextId := 0 }).2 ∧
    (refreshSessionCall
      (refreshSessionCall
        { inFlightId := none, networkCalls := 0, nextId := 0 }).1).1 =
      (refreshSessionCall
        { inFlightId := none, networkCalls := 0, nextId := 0 }).1 :=
  C8_single_flight_refresh
    { inFlightId := none, networkCalls := 0, nextId := 0 } rfl

end GroceryGunj
